import Mathlib

/-!
Verification of the GLOW driver (`glow_basic.py`).

The embedding models the fixed-format text parser `glowparse`, the date
encoder `glowdate`, and the stdin-line assembly of `maxwellian`.

Modelling choices:
* A captured text is a list of lines, each line already tokenized into its
  whitespace-separated numeric fields; a numeric field is a rational number
  (exact value of the parsed float, no NaN, no comment characters).
* `np.genfromtxt(table, skip_header=s, max_rows=m)` on a shared `io.StringIO`
  consumes lines from the current position: it first skips `s` raw lines,
  then skips blank lines until the first data row, whose field count fixes
  the column count, then collects rows until `m` valid rows were read or the
  input is exhausted; a non-blank row with a different field count is
  recorded as invalid and a `ValueError` is raised after the read loop; an
  exhausted input yields an empty result.  A result with a single row (or a
  single column) is squeezed to one dimension, so 2-D indexing on it raises
  an `IndexError`.
* Errors (AssertionError, ValueError, IndexError) are modelled by
  `Except.error` with a message identifying the failing check.
-/

namespace Glow

/-- A line of captured text: its numeric fields. -/
abbrev Line := List ℚ

/-- A captured text: its lines. -/
abbrev Raw := List Line

/-- A wavelength label of the VER table: 14 numeric labels and the "LBH" band. -/
inductive Wavelen where
  | num : ℕ → Wavelen
  | LBH : Wavelen
deriving DecidableEq, Repr

/-- The 13 fixed quantity names of the first data block (`glow_var`). -/
def glow_var : List String :=
  ["Tn", "O", "N2", "NO", "NeIn", "NeOut", "ionrate",
   "O+", "O2+", "NO+", "N2D", "pedersen", "hall"]

/-- The 15 fixed wavelength labels of the second data block (`wavelen`). -/
def wavelen : List Wavelen :=
  [.num 3371, .num 4278, .num 5200, .num 5577, .num 6300, .num 7320,
   .num 10400, .num 3644, .num 7774, .num 8446, .num 3726, .LBH,
   .num 1356, .num 1493, .num 1304]

/-- The xarray.Dataset assembled by `glowparse`: the altitude coordinate, the
13 named 1-D profiles, and the 2-D VER array with its wavelength labels. -/
structure Dataset where
  alt_km : List ℚ
  data_vars : List (String × List ℚ)
  ver : List (List ℚ)
  wavelength : List Wavelen
deriving DecidableEq, Repr

/-- Row-collection loop of `np.genfromtxt`: `ncols` is the column count fixed
by the first data row, `need` the number of rows still wanted, `acc` the rows
read so far (reversed), `inv` whether an invalid row was seen.  Returns the
rows in order, the invalid flag, and the unconsumed lines. -/
def collectRows (ncols : ℕ) (need : ℕ) (ls : List Line) (acc : List Line)
    (inv : Bool) : List Line × Bool × List Line :=
  match need, ls with
  | _, [] => (acc.reverse, inv, [])
  | 0, rest => (acc.reverse, inv, rest)
  | need + 1, l :: ls =>
    if l.length = 0 then collectRows ncols (need + 1) ls acc inv
    else if l.length = ncols then
      (if need = 0 then ((l :: acc).reverse, inv, ls)
       else collectRows ncols need ls (l :: acc) inv)
    else collectRows ncols (need + 1) ls acc true

/-- Model of `np.genfromtxt(table, skip_header=skip, max_rows=maxRows)` on a
shared stream: returns the rows read and the unconsumed lines, or the
`ValueError` raised on inconsistent column counts. -/
def genfromtxt (skip : ℕ) (maxRows : ℕ) (lines : List Line) :
    Except String (List Line × List Line) :=
  match ((lines.drop skip).dropWhile fun l => l.isEmpty) with
  | [] => .ok ([], [])
  | first :: rest =>
    let r := collectRows first.length (maxRows - 1) rest [first] false
    if r.2.1 then .error "ValueError: genfromtxt inconsistent column counts"
    else .ok (r.1, r.2.2)

/-- `Nalt` from the source: both data blocks have 102 altitude rows. -/
def Nalt : ℕ := 102

/-- Model of `dat[:, 1:].T` for the rows of a parsed block: the list of the
`w` data columns (column 0 is the altitude axis). -/
def colsT (dat : List Line) (w : ℕ) : List (List ℚ) :=
  (List.range w).map fun j => dat.map fun r => r.getD (j + 1) 0

/-- Did the call raise? -/
def failed {α : Type} : Except String α → Bool
  | .error _ => true
  | .ok _ => false

instance {ε α : Type} [DecidableEq ε] [DecidableEq α] : DecidableEq (Except ε α) :=
  fun x y =>
  match x, y with
  | .error a, .error b =>
    if h : a = b then isTrue (congrArg Except.error h)
    else isFalse fun hc => h (Except.error.inj hc)
  | .error _, .ok _ => isFalse fun hc => Except.noConfusion hc
  | .ok _, .error _ => isFalse fun hc => Except.noConfusion hc
  | .ok a, .ok b =>
    if h : a = b then isTrue (congrArg Except.ok h)
    else isFalse fun hc => h (Except.ok.inj hc)

/-- Model of `glowparse`: three sequential `genfromtxt` reads on one stream
(header echo skipped, 10-field header row; a skipped line then 102 rows of
altitude + 13 quantities; a skipped line then 102 rows of altitude + 15 VER
columns), with the source's assertions and the shape checks that the
`xarray.DataArray` constructor performs. -/
def glowparse (raw : Raw) : Except String Dataset :=
  match genfromtxt 1 1 raw with
  | .error e => .error e
  | .ok (hrows, rest1) =>
    -- assert header.size == 10
    if (hrows.map List.length).sum ≠ 10 then
      .error "AssertionError: header.size == 10"
    else
      match genfromtxt 1 Nalt rest1 with
      | .error e => .error e
      | .ok (dat, rest2) =>
        -- dat[:, 0] raises IndexError on a squeezed (0-D or 1-D) result
        if dat.length < 2 then .error "IndexError: block 1 is not 2-D"
        else if (dat.headD []).length < 2 then
          .error "IndexError: block 1 is not 2-D"
        else
          let alt_km := dat.map fun r => r.headD 0
          let ncols1 := (dat.headD []).length
          if glow_var.length ≠ ncols1 - 1 then
            .error "ValueError: did not read raw output from GLOW correctly"
          else
            let d := glow_var.zip (colsT dat (ncols1 - 1))
            -- assert len(glow_var) == len(iono.data_vars)
            if glow_var.length ≠ d.length then
              .error "AssertionError: data_vars count"
            else
              match genfromtxt 1 Nalt rest2 with
              | .error e => .error e
              | .ok (dat2, _) =>
                -- dat[0, 0] raises IndexError on a squeezed result
                if dat2.length < 2 then .error "IndexError: block 2 is not 2-D"
                else if (dat2.headD []).length < 2 then
                  .error "IndexError: block 2 is not 2-D"
                else
                  -- assert dat[0, 0] == alt_km[0]
                  if (dat2.headD []).headD 0 ≠ alt_km.headD 0 then
                    .error "AssertionError: altitude anchor mismatch"
                  else
                    let ncols2 := (dat2.headD []).length
                    -- xarray.DataArray(dat[:, 1:], coords=...) shape checks
                    if dat2.length ≠ alt_km.length then
                      .error "ValueError: conflicting sizes for dimension alt_km"
                    else if ncols2 - 1 ≠ wavelen.length then
                      .error "ValueError: conflicting sizes for dimension wavelength"
                    else
                      .ok { alt_km := alt_km
                            data_vars := d
                            ver := dat2.map List.tail
                            wavelength := wavelen }

/-! ### Date encoding (`glowdate`) and the `maxwellian` stdin line -/

/-- A `datetime.datetime` value as far as `glowdate` reads it: the year, the
day of year (what `strftime("%j")` renders), and the time-of-day fields. -/
structure Timestamp where
  year : ℕ
  doy : ℕ
  hour : ℕ
  minute : ℕ
  second : ℕ
  microsecond : ℕ
deriving DecidableEq, Repr

/-- Field ranges of a valid `datetime`: year 1..9999, day of year 1..366,
hour 0..23, minute and second 0..59, microsecond 0..999999. -/
def Timestamp.Valid (t : Timestamp) : Prop :=
  1 ≤ t.year ∧ t.year ≤ 9999 ∧ 1 ≤ t.doy ∧ t.doy ≤ 366 ∧
  t.hour ≤ 23 ∧ t.minute ≤ 59 ∧ t.second ≤ 59 ∧ t.microsecond ≤ 999999

instance (t : Timestamp) : Decidable t.Valid := by
  unfold Timestamp.Valid
  infer_instance

/-- `strftime("%j")`: the day of year, zero-padded to three digits. -/
def pad3 (n : ℕ) : String :=
  if n < 10 then "00" ++ Nat.repr n
  else if n < 100 then "0" ++ Nat.repr n
  else Nat.repr n

/-- Model of `glowdate`: the date field interpolates `t.year` (as `str`
renders it, unpadded) followed by `strftime("%j")`; the seconds field is
`str(t.hour * 3600 + t.minute * 60 + t.second)`. -/
def glowdate (t : Timestamp) : String × String :=
  (Nat.repr t.year ++ pad3 t.doy,
   Nat.repr (t.hour * 3600 + t.minute * 60 + t.second))

/-- The ten values interpolated into the stdin line of `maxwellian`, in
source order: date and seconds from `glowdate`, latitude, longitude, the
81-day-average F10.7 (`f107s` of the day), the same-day F10.7, the
previous-day F10.7, the same-day Ap, the energy flux and the characteristic
energy, each already rendered to text. -/
def maxwellianFields (t : Timestamp)
    (glat glon f107a f107 f107p ap q echar : String) : List String :=
  [(glowdate t).1, (glowdate t).2, glat, glon, f107a, f107, f107p, ap, q, echar]

/-- The stdin line of `maxwellian`: the f-string joining the ten values with
single spaces. -/
def maxwellianStdin (t : Timestamp)
    (glat glon f107a f107 f107p ap q echar : String) : String :=
  (glowdate t).1 ++ " " ++ (glowdate t).2 ++ " " ++ glat ++ " " ++ glon ++ " "
    ++ f107a ++ " " ++ f107 ++ " " ++ f107p ++ " " ++ ap ++ " " ++ q ++ " " ++ echar

/-- One step of splitting a character sequence on single spaces. -/
def splitStep (c : Char) (acc : List (List Char)) : List (List Char) :=
  if c = ' ' then [] :: acc
  else
    match acc with
    | f :: rest => (c :: f) :: rest
    | [] => [[c]]

/-- The space-separated fields of a character sequence (empty fields kept). -/
def splitFields (s : List Char) : List (List Char) :=
  s.foldr splitStep [[]]


/-! ### Observations used to state the claims -/

/-- The fields of the line `glowparse` reads as the 10-field header row: the
first non-blank line after the skipped first line (empty when the text ends
before one). -/
def headerFields (raw : Raw) : Line :=
  ((raw.drop 1).dropWhile fun l => l.isEmpty).headD []

/-- The first data block as `glowparse` reads it: the rows of the second
`genfromtxt` call on the stream. -/
def firstBlock (raw : Raw) : Except String (List Line) :=
  match genfromtxt 1 1 raw with
  | .error e => .error e
  | .ok (_, rest1) =>
    match genfromtxt 1 Nalt rest1 with
    | .error e => .error e
    | .ok (dat, _) => .ok dat

/-- The second data block as `glowparse` reads it: the rows of the third
`genfromtxt` call on the stream. -/
def secondBlock (raw : Raw) : Except String (List Line) :=
  match genfromtxt 1 1 raw with
  | .error e => .error e
  | .ok (_, rest1) =>
    match genfromtxt 1 Nalt rest1 with
    | .error e => .error e
    | .ok (_, rest2) =>
      match genfromtxt 1 Nalt rest2 with
      | .error e => .error e
      | .ok (dat2, _) => .ok dat2


/-! ### Concrete captures used in the claim instances -/

/-- A header-echo line. -/
def c1Echo : Line := [0]

/-- A 10-field numeric header row. -/
def c1Header : Line := List.replicate 10 1

/-- 102 rows of altitude plus 13 quantity columns, first altitude 100. -/
def c1Block1 : List Line := List.replicate 102 ((100 : ℚ) :: List.replicate 13 1)

/-- 102 rows of altitude plus 15 VER columns, first altitude 100. -/
def c1Block2 : List Line := List.replicate 102 ((100 : ℚ) :: List.replicate 15 2)

/-- The capture laid out exactly as claim C1 describes it: echo line, header
row, then the two data blocks with nothing in between. -/
def c1ClaimInput : Raw := c1Echo :: c1Header :: (c1Block1 ++ c1Block2)

/-- First data block of the C2 synthetic capture: row `i` holds altitude
`100 + i` and the 13 values `1000 * i + 10 * j + 7`; the literal value at
row 0, column 1 is 7. -/
def c2Block1 : List Line :=
  (List.range 102).map fun i =>
    ((100 + i : ℕ) : ℚ) :: ((List.range 13).map fun j => ((1000 * i + 10 * j + 7 : ℕ) : ℚ))

/-- Second data block of the C2 synthetic capture: row `i` holds altitude
`100 + i` and 15 VER values. -/
def c2Block2 : List Line :=
  (List.range 102).map fun i =>
    ((100 + i : ℕ) : ℚ) :: ((List.range 15).map fun j => ((5000 * i + j + 3 : ℕ) : ℚ))

/-- The C2 synthetic capture laid out exactly as the claim describes it:
1 header-echo line, 1 ten-field header line, 102 rows of 14 columns, 102
rows of 16 columns, with matching first altitude and no other lines. -/
def c2ClaimInput : Raw := c1Echo :: c1Header :: (c2Block1 ++ c2Block2)

/-- The C2 synthetic capture amended with one skipped label line before each
data block (what the parser actually consumes). -/
def c2Input : Raw :=
  c1Echo :: c1Header :: ([9] : Line) :: (c2Block1 ++ (([8] : Line) :: c2Block2))

/-- Second block of the C9 witness: same as `c1Block2`. -/
def c9Block2 : List Line := List.replicate 102 ((100 : ℚ) :: List.replicate 15 2)

/-- Second block of the C9 witness with every altitude after the first
changed to 999 and everything else identical. -/
def c9Block2Alt : List Line :=
  ((100 : ℚ) :: List.replicate 15 2) ::
    List.replicate 101 ((999 : ℚ) :: List.replicate 15 2)


/-! ### Basic list helpers -/

theorem headD_mem {α : Type} (l : List α) (d : α) (h : l ≠ []) : l.headD d ∈ l := by
  cases l with
  | nil => exact absurd rfl h
  | cons a l => simp

theorem headD_map {α β : Type} (f : α → β) (l : List α) (d : α) (d' : β) (h : l ≠ []) :
    (l.map f).headD d' = f (l.headD d) := by
  cases l with
  | nil => exact absurd rfl h
  | cons a l => simp

/-! ### `collectRows` lemmas -/

/-- Reading a uniform table of exactly the wanted number of rows consumes it
entirely and stops right after its last row. -/
theorem collectRows_exact (c : ℕ) (hc : c ≠ 0) (rows : List Line) :
    ∀ (rest acc : List Line) (inv : Bool), (∀ r ∈ rows, r.length = c) →
      collectRows c rows.length (rows ++ rest) acc inv = (acc.reverse ++ rows, inv, rest) := by
  induction rows with
  | nil =>
    intro rest acc inv _
    cases rest <;> simp [collectRows]
  | cons r rows ih =>
    intro rest acc inv hlen
    have hr : r.length = c := hlen r (by simp)
    have hr0 : ¬ r.length = 0 := by rw [hr]; exact hc
    show collectRows c (rows.length + 1) (r :: (rows ++ rest)) acc inv = _
    rw [collectRows]
    rw [if_neg hr0, if_pos hr]
    cases rows with
    | nil => simp [collectRows]
    | cons s rows' =>
      have hne : ¬ (s :: rows').length = 0 := by simp
      rw [if_neg hne]
      rw [ih rest (r :: acc) inv fun x hx => hlen x (by simp [hx])]
      simp

/-- The rows returned by `collectRows` extend the accumulator. -/
theorem collectRows_prefix (c : ℕ) (ls : List Line) :
    ∀ (need : ℕ) (acc : List Line) (inv : Bool),
      ∃ tl, (collectRows c need ls acc inv).1 = acc.reverse ++ tl := by
  induction ls with
  | nil =>
    intro need acc inv
    exact ⟨[], by cases need <;> simp [collectRows]⟩
  | cons l ls ih =>
    intro need acc inv
    cases need with
    | zero => exact ⟨[], by simp [collectRows]⟩
    | succ need =>
      rw [collectRows]
      by_cases h0 : l.length = 0
      · rw [if_pos h0]; exact ih (need + 1) acc inv
      · rw [if_neg h0]
        by_cases hc : l.length = c
        · rw [if_pos hc]
          cases need with
          | zero => exact ⟨[l], by simp⟩
          | succ k =>
            have hne : ¬ k + 1 = 0 := by omega
            rw [if_neg hne]
            obtain ⟨tl, htl⟩ := ih (k + 1) (l :: acc) inv
            exact ⟨l :: tl, by rw [htl]; simp⟩
        · rw [if_neg hc]; exact ih (need + 1) acc true

/-- Every row beyond the accumulator that `collectRows` returns is a line of
the input whose field count is the established column count. -/
theorem collectRows_count (c : ℕ) (ls : List Line) :
    ∀ (need : ℕ) (acc : List Line) (inv : Bool),
      ((collectRows c need ls acc inv).1).length ≤
        acc.length + ls.countP (fun l => l.length == c) := by
  induction ls with
  | nil =>
    intro need acc inv
    cases need <;> simp [collectRows]
  | cons l ls ih =>
    intro need acc inv
    cases need with
    | zero => simp [collectRows]
    | succ need =>
      rw [collectRows, List.countP_cons]
      by_cases h0 : l.length = 0
      · rw [if_pos h0]
        exact le_trans (ih (need + 1) acc inv) (by omega)
      · rw [if_neg h0]
        by_cases hc : l.length = c
        · rw [if_pos hc]
          have hp : (fun l => l.length == c) l = true := by simpa using hc
          cases need with
          | zero =>
            simp only [if_pos rfl, List.reverse_cons, List.length_append,
              List.length_reverse, List.length_cons]
            simp [hp]
          | succ k =>
            have hne : ¬ k + 1 = 0 := by omega
            rw [if_neg hne]
            refine le_trans (ih (k + 1) (l :: acc) inv) ?_
            simp [hp]
            omega
        · rw [if_neg hc]
          exact le_trans (ih (need + 1) acc true) (by omega)

/-- `collectRows` either consumes the whole input or returns a full result. -/
theorem collectRows_rest (c : ℕ) (ls : List Line) :
    ∀ (need : ℕ) (acc : List Line) (inv : Bool),
      (collectRows c need ls acc inv).2.2 = [] ∨
        ((collectRows c need ls acc inv).1).length = acc.length + need := by
  induction ls with
  | nil =>
    intro need acc inv
    cases need <;> simp [collectRows]
  | cons l ls ih =>
    intro need acc inv
    cases need with
    | zero => right; simp [collectRows]
    | succ need =>
      rw [collectRows]
      by_cases h0 : l.length = 0
      · rw [if_pos h0]; exact ih (need + 1) acc inv
      · rw [if_neg h0]
        by_cases hc : l.length = c
        · rw [if_pos hc]
          cases need with
          | zero => right; simp
          | succ k =>
            have hne : ¬ k + 1 = 0 := by omega
            rw [if_neg hne]
            rcases ih (k + 1) (l :: acc) inv with h | h
            · exact Or.inl h
            · right; rw [h]; simp; omega
        · rw [if_neg hc]; exact ih (need + 1) acc true

/-! ### `genfromtxt` lemmas -/

/-- Reading a uniform table with exactly the wanted number of rows after one
skipped line consumes the rows and leaves the stream at the next line. -/
theorem genfromtxt_exact (m : ℕ) (hm : 1 ≤ m) (x : Line) (rows rest : List Line)
    (c : ℕ) (hc : c ≠ 0) (hlen : rows.length = m) (hrows : ∀ r ∈ rows, r.length = c) :
    genfromtxt 1 m (x :: (rows ++ rest)) = .ok (rows, rest) := by
  cases rows with
  | nil => simp at hlen; omega
  | cons r rows' =>
    have hr : r.length = c := hrows r (by simp)
    have hrne : r.isEmpty = false := by
      cases r with
      | nil => exact absurd hr.symm hc
      | cons a t => rfl
    rw [genfromtxt]
    simp only [List.drop_succ_cons, List.drop_zero, List.cons_append,
      List.dropWhile_cons, hrne, Bool.false_eq_true, if_false]
    rw [hr, show m - 1 = rows'.length from by simp at hlen; omega]
    rw [collectRows_exact c hc rows' rest [r] false fun z hz => hrows z (by simp [hz])]
    simp

/-- A successful `genfromtxt` read with at least one row read at most as many
rows as the remaining stream has lines matching the established column count. -/
theorem genfromtxt_count (s m : ℕ) (lines rows rest : List Line)
    (h : genfromtxt s m lines = .ok (rows, rest)) (hne : rows ≠ []) :
    rows.length ≤ (lines.drop s).countP fun l => l.length == (rows.headD []).length := by
  rw [genfromtxt] at h
  cases hD : (lines.drop s).dropWhile (fun l => l.isEmpty) with
  | nil =>
    rw [hD] at h
    simp only [Except.ok.injEq, Prod.mk.injEq] at h
    exact absurd h.1.symm hne
  | cons first rest' =>
    rw [hD] at h
    simp only at h
    by_cases hI : (collectRows first.length (m - 1) rest' [first] false).2.1 = true
    · rw [if_pos hI] at h; exact absurd h (by simp)
    · rw [if_neg hI] at h
      simp only [Except.ok.injEq, Prod.mk.injEq] at h
      obtain ⟨tl, htl⟩ := collectRows_prefix first.length rest' (m - 1) [first] false
      have hrows : rows = first :: tl := by rw [← h.1, htl]; simp
      have hhead : rows.headD [] = first := by rw [hrows]; rfl
      have hcount := collectRows_count first.length rest' (m - 1) [first] false
      rw [h.1] at hcount
      have hsplit : (lines.drop s).countP (fun l => l.length == first.length) =
          ((lines.drop s).takeWhile fun l => l.isEmpty).countP
            (fun l => l.length == first.length) +
          (first :: rest').countP (fun l => l.length == first.length) := by
        rw [← List.countP_append, ← hD, List.takeWhile_append_dropWhile]
      rw [hhead, hsplit, List.countP_cons]
      simp only [List.length_cons, List.length_nil, beq_self_eq_true, if_true] at hcount ⊢
      omega

/-- A successful `genfromtxt` read either consumed the whole stream or read
exactly the wanted number of rows. -/
theorem genfromtxt_full (s m : ℕ) (hm : 1 ≤ m) (lines rows rest : List Line)
    (h : genfromtxt s m lines = .ok (rows, rest)) :
    rest = [] ∨ rows.length = m := by
  rw [genfromtxt] at h
  cases hD : (lines.drop s).dropWhile (fun l => l.isEmpty) with
  | nil =>
    rw [hD] at h
    simp only [Except.ok.injEq, Prod.mk.injEq] at h
    exact Or.inl h.2.symm
  | cons first rest' =>
    rw [hD] at h
    simp only at h
    by_cases hI : (collectRows first.length (m - 1) rest' [first] false).2.1 = true
    · rw [if_pos hI] at h; exact absurd h (by simp)
    · rw [if_neg hI] at h
      simp only [Except.ok.injEq, Prod.mk.injEq] at h
      rcases collectRows_rest first.length rest' (m - 1) [first] false with hr | hr
      · exact Or.inl (h.2.symm.trans hr)
      · right
        rw [← h.1, hr]
        simp only [List.length_cons, List.length_nil]
        omega

/-! ### Parsing a well-formed capture -/

/-- Parsing a well-formed capture: header echo line `e`, 10-field header `h`,
a skipped label line `l1`, 102 rows of 14 fields, a skipped label line `l2`,
102 rows of 16 fields whose first altitude matches the first block's. -/
theorem glowparse_wellformed (e h l1 l2 : Line) (b1 b2 : List Line)
    (h10 : h.length = 10) (hb1len : b1.length = Nalt)
    (hb1 : ∀ r ∈ b1, r.length = 14) (hb2len : b2.length = Nalt)
    (hb2 : ∀ r ∈ b2, r.length = 16)
    (hanchor : (b2.headD []).headD 0 = (b1.headD []).headD 0) :
    glowparse (e :: h :: l1 :: (b1 ++ l2 :: b2)) =
      .ok ⟨b1.map fun r => r.headD 0, glow_var.zip (colsT b1 13),
           b2.map List.tail, wavelen⟩ := by
  have hb1ne : b1 ≠ [] := by intro hh; rw [hh] at hb1len; simp [Nalt] at hb1len
  have hb2ne : b2 ≠ [] := by intro hh; rw [hh] at hb2len; simp [Nalt] at hb2len
  have hb1h : (b1.headD []).length = 14 := hb1 _ (headD_mem b1 [] hb1ne)
  have hb2h : (b2.headD []).length = 16 := hb2 _ (headD_mem b2 [] hb2ne)
  have g1 : genfromtxt 1 1 (e :: h :: l1 :: (b1 ++ l2 :: b2)) =
      .ok ([h], l1 :: (b1 ++ l2 :: b2)) := by
    have hx := genfromtxt_exact 1 le_rfl e [h] (l1 :: (b1 ++ l2 :: b2)) 10
      (by omega) (by simp) (by simpa using h10)
    simpa using hx
  have g2 : genfromtxt 1 Nalt (l1 :: (b1 ++ l2 :: b2)) = .ok (b1, l2 :: b2) :=
    genfromtxt_exact Nalt (by simp [Nalt]) l1 b1 (l2 :: b2) 14 (by omega) hb1len hb1
  have g3 : genfromtxt 1 Nalt (l2 :: b2) = .ok (b2, []) := by
    have hx := genfromtxt_exact Nalt (by simp [Nalt]) l2 b2 [] 16 (by omega) hb2len hb2
    simpa using hx
  have hmap : (b1.map fun r => r.headD 0).headD 0 = (b1.headD []).headD 0 :=
    headD_map (fun r => r.headD 0) b1 [] 0 hb1ne
  rw [glowparse, g1]
  simp only [List.map_cons, List.map_nil, List.sum_cons, List.sum_nil, h10]
  rw [if_neg (by omega)]
  rw [g2]
  simp only [hb1len, hb1h, hmap]
  rw [if_neg (by simp [Nalt]), if_neg (by omega)]
  rw [if_neg (by simp [glow_var])]
  rw [if_neg (by simp [glow_var, colsT])]
  rw [g3]
  simp only [hb2len, hb2h]
  rw [if_neg (by simp [Nalt]), if_neg (by omega)]
  rw [if_neg (by simpa using hanchor)]
  rw [if_neg (by simp [hb1len, hb2len, Nalt]), if_neg (by simp [wavelen])]

/-- `genfromtxt` on an exhausted stream yields an empty result. -/
theorem genfromtxt_nil (s m : ℕ) : genfromtxt s m [] = .ok ([], []) := by
  cases s <;> rfl

/-- Shape facts forced by a successful parse: all three reads succeeded, and
each data block has exactly 102 rows with 14 resp. 16 columns. -/
theorem glowparse_ok_shape (raw : Raw) (ds : Dataset) (h : glowparse raw = .ok ds) :
    ∃ p1 p2 p3 : List Line × List Line,
      genfromtxt 1 1 raw = .ok p1 ∧
      genfromtxt 1 Nalt p1.2 = .ok p2 ∧
      genfromtxt 1 Nalt p2.2 = .ok p3 ∧
      p2.1.length = Nalt ∧ (p2.1.headD []).length = 14 ∧
      p3.1.length = Nalt ∧ (p3.1.headD []).length = 16 ∧
      (p3.1.headD []).headD 0 = (p2.1.headD []).headD 0 := by
  rw [glowparse] at h
  cases hg1 : genfromtxt 1 1 raw with
  | error e => rw [hg1] at h; exact absurd h (by simp)
  | ok p1 =>
    rw [hg1] at h
    obtain ⟨hrows, rest1⟩ := p1
    simp only at h
    by_cases c1 : (hrows.map List.length).sum ≠ 10
    · rw [if_pos c1] at h; exact absurd h (by simp)
    rw [if_neg c1] at h
    cases hg2 : genfromtxt 1 Nalt rest1 with
    | error e => rw [hg2] at h; exact absurd h (by simp)
    | ok p2 =>
      rw [hg2] at h
      obtain ⟨dat1, rest2⟩ := p2
      simp only at h
      by_cases c2 : dat1.length < 2
      · rw [if_pos c2] at h; exact absurd h (by simp)
      rw [if_neg c2] at h
      by_cases c3 : (dat1.headD []).length < 2
      · rw [if_pos c3] at h; exact absurd h (by simp)
      rw [if_neg c3] at h
      by_cases c4 : glow_var.length ≠ (dat1.headD []).length - 1
      · rw [if_pos c4] at h; exact absurd h (by simp)
      rw [if_neg c4] at h
      by_cases c5 : glow_var.length ≠
          (glow_var.zip (colsT dat1 ((dat1.headD []).length - 1))).length
      · rw [if_pos c5] at h; exact absurd h (by simp)
      rw [if_neg c5] at h
      cases hg3 : genfromtxt 1 Nalt rest2 with
      | error e => rw [hg3] at h; exact absurd h (by simp)
      | ok p3 =>
        rw [hg3] at h
        obtain ⟨dat2, rest3⟩ := p3
        simp only at h
        by_cases c6 : dat2.length < 2
        · rw [if_pos c6] at h; exact absurd h (by simp)
        rw [if_neg c6] at h
        by_cases c7 : (dat2.headD []).length < 2
        · rw [if_pos c7] at h; exact absurd h (by simp)
        rw [if_neg c7] at h
        by_cases c8 : (dat2.headD []).headD 0 ≠ (dat1.map fun r => r.headD 0).headD 0
        · rw [if_pos c8] at h; exact absurd h (by simp)
        rw [if_neg c8] at h
        by_cases c9 : dat2.length ≠ (dat1.map fun r => r.headD 0).length
        · rw [if_pos c9] at h; exact absurd h (by simp)
        rw [if_neg c9] at h
        by_cases c10 : (dat2.headD []).length - 1 ≠ wavelen.length
        · rw [if_pos c10] at h; exact absurd h (by simp)
        have hgl : glow_var.length = 13 := by simp [glow_var]
        have hwl : wavelen.length = 15 := by simp [wavelen]
        have h14 : (dat1.headD []).length = 14 := by omega
        have h16 : (dat2.headD []).length = 16 := by omega
        have hd1 : dat1.length = Nalt := by
          rcases genfromtxt_full 1 Nalt (by simp [Nalt]) rest1 dat1 rest2 hg2 with hr | hr
          · rw [hr, genfromtxt_nil] at hg3
            simp only [Except.ok.injEq, Prod.mk.injEq] at hg3
            rw [← hg3.1] at c6
            simp at c6
          · exact hr
        have hd2 : dat2.length = Nalt := by
          have := c9
          simp only [List.length_map, not_not] at this
          rw [this, hd1]
        have hd1ne : dat1 ≠ [] := by
          intro hh
          rw [hh] at c2
          simp at c2
        have hanc : (dat2.headD []).headD 0 = (dat1.headD []).headD 0 := by
          have he := not_ne_iff.mp c8
          rw [he, headD_map (fun r => r.headD 0) dat1 [] 0 hd1ne]
        exact ⟨(hrows, rest1), (dat1, rest2), (dat2, rest3), rfl, hg2, hg3,
          hd1, h14, hd2, h16, hanc⟩

/-! ### Decimal rendering lemmas -/

theorem digitChar_ne_space (n : ℕ) : Nat.digitChar n ≠ ' ' := by
  by_cases h : n < 16
  · interval_cases n <;> decide
  · have h16 : Nat.digitChar n = '*' := by
      rw [Nat.digitChar.eq_def]
      rw [if_neg (by omega : ¬ n = 0), if_neg (by omega : ¬ n = 1),
        if_neg (by omega : ¬ n = 2), if_neg (by omega : ¬ n = 3),
        if_neg (by omega : ¬ n = 4), if_neg (by omega : ¬ n = 5),
        if_neg (by omega : ¬ n = 6), if_neg (by omega : ¬ n = 7),
        if_neg (by omega : ¬ n = 8), if_neg (by omega : ¬ n = 9),
        if_neg (by omega : ¬ n = 10), if_neg (by omega : ¬ n = 11),
        if_neg (by omega : ¬ n = 12), if_neg (by omega : ¬ n = 13),
        if_neg (by omega : ¬ n = 14), if_neg (by omega : ¬ n = 15)]
    rw [h16]
    decide

theorem space_notin_toDigitsCore (b : ℕ) :
    ∀ (f n : ℕ) (l : List Char), (' ' : Char) ∉ l →
      (' ' : Char) ∉ Nat.toDigitsCore b f n l := by
  intro f
  induction f with
  | zero =>
    intro n l hl
    simpa [Nat.toDigitsCore] using hl
  | succ f ih =>
    intro n l hl
    rw [Nat.toDigitsCore]
    by_cases h : n / b = 0
    · rw [if_pos h]
      simp only [List.mem_cons, not_or]
      exact ⟨fun hc => digitChar_ne_space (n % b) hc.symm, hl⟩
    · rw [if_neg h]
      refine ih (n / b) (Nat.digitChar (n % b) :: l) ?_
      simp only [List.mem_cons, not_or]
      exact ⟨fun hc => digitChar_ne_space (n % b) hc.symm, hl⟩

theorem space_notin_repr (n : ℕ) : (' ' : Char) ∉ (Nat.repr n).data := by
  have hx := space_notin_toDigitsCore 10 (n + 1) n [] (by simp)
  simpa [Nat.repr, Nat.toDigits, List.asString] using hx

theorem space_notin_pad3 (n : ℕ) : (' ' : Char) ∉ (pad3 n).data := by
  unfold pad3
  split
  · simpa [String.data_append] using space_notin_repr n
  · split
    · simpa [String.data_append] using space_notin_repr n
    · exact space_notin_repr n

/-- `Nat.toDigitsCore` does not depend on the fuel once it is large enough. -/
theorem toDigitsCore_fuel (b : ℕ) (hb : 2 ≤ b) (m : ℕ) :
    ∀ (f g : ℕ) (l : List Char), m < f → m < g →
      Nat.toDigitsCore b f m l = Nat.toDigitsCore b g m l := by
  induction m using Nat.strong_induction_on with
  | _ m ih =>
    intro f g l hf hg
    cases f with
    | zero => omega
    | succ f =>
      cases g with
      | zero => omega
      | succ g =>
        rw [Nat.toDigitsCore, Nat.toDigitsCore]
        by_cases h : m / b = 0
        · rw [if_pos h, if_pos h]
        · rw [if_neg h, if_neg h]
          have hm : 0 < m := by
            rcases Nat.eq_zero_or_pos m with h0 | h0
            · exact absurd (by simp [h0]) h
            · exact h0
          have hlt : m / b < m := Nat.div_lt_self hm (by omega)
          exact ih (m / b) hlt f g _ (by omega) (by omega)

theorem repr_length_succ (n : ℕ) (h : 10 ≤ n) :
    (Nat.repr n).length = (Nat.repr (n / 10)).length + 1 := by
  have h0 : ¬ n / 10 = 0 := by
    intro hc
    rw [Nat.div_eq_zero_iff (by omega)] at hc
    omega
  have hlt : n / 10 < n := Nat.div_lt_self (by omega) (by omega)
  simp only [Nat.repr, Nat.toDigits, String.length, List.asString]
  rw [Nat.toDigitsCore]
  rw [if_neg h0]
  rw [Nat.toDigitsCore_lens_eq]
  rw [toDigitsCore_fuel 10 (by omega) (n / 10) n (n / 10 + 1) [] (by omega) (by omega)]

theorem repr_length_exact : ∀ (k n : ℕ), 10 ^ k ≤ n → n < 10 ^ (k + 1) →
    (Nat.repr n).length = k + 1 := by
  intro k
  induction k with
  | zero =>
    intro n h1 h2
    have h0 : n / 10 = 0 := Nat.div_eq_of_lt (by simpa using h2)
    simp only [Nat.repr, Nat.toDigits, String.length, List.asString]
    rw [Nat.toDigitsCore]
    rw [if_pos h0]
    rfl
  | succ k ih =>
    intro n h1 h2
    have h10 : 10 ≤ n := le_trans (by simpa using Nat.pow_le_pow_right (by omega) (by omega : 1 ≤ k + 1)) h1
    rw [repr_length_succ n h10]
    rw [ih (n / 10) ?lo ?hi]
    case lo =>
      rw [Nat.le_div_iff_mul_le (by omega)]
      calc 10 ^ k * 10 = 10 ^ (k + 1) := by ring
        _ ≤ n := h1
    case hi =>
      rw [Nat.div_lt_iff_lt_mul (by omega)]
      calc n < 10 ^ (k + 2) := h2
        _ = 10 ^ (k + 1) * 10 := by ring

/-! ### Splitting the assembled line -/

theorem foldr_splitStep_nosep (s : List Char) (hs : (' ' : Char) ∉ s)
    (x : List (List Char)) : s.foldr splitStep ([] :: x) = s :: x := by
  induction s with
  | nil => rfl
  | cons c s ih =>
    have hc : ¬ c = ' ' := fun h => hs (by simp [h])
    have hs' : (' ' : Char) ∉ s := fun h => hs (by simp [h])
    rw [List.foldr_cons, ih hs']
    simp [splitStep, hc]

theorem splitFields_sep (f rest : List Char) (hf : (' ' : Char) ∉ f) :
    splitFields (f ++ ' ' :: rest) = f :: splitFields rest := by
  unfold splitFields
  rw [List.foldr_append]
  have h1 : List.foldr splitStep [[]] (' ' :: rest) =
      [] :: List.foldr splitStep [[]] rest := by
    rw [List.foldr_cons]
    simp [splitStep]
  rw [h1]
  exact foldr_splitStep_nosep f hf _

theorem splitFields_nosep (f : List Char) (hf : (' ' : Char) ∉ f) :
    splitFields f = [f] :=
  foldr_splitStep_nosep f hf []

/-! ### Claim C3 -/

/-- C3: for every input text whose header row (the numeric row read after
skipping the first line) does not contain exactly 10 fields, `glowparse`
raises the header assertion error — the distinguished message shows the
failure happens at the header check, before any data-block row is parsed. -/
theorem c3_header_assert (raw : Raw) (h : (headerFields raw).length ≠ 10) :
    glowparse raw = .error "AssertionError: header.size == 10" := by
  unfold headerFields at h
  cases hD : (raw.drop 1).dropWhile (fun l => l.isEmpty) with
  | nil =>
    have hg1 : genfromtxt 1 1 raw = .ok ([], []) := by rw [genfromtxt, hD]
    rw [glowparse, hg1]
    simp
  | cons first rest' =>
    have hcr : collectRows first.length 0 rest' [first] false =
        ([first], false, rest') := by
      cases rest' <;> rfl
    have hg1 : genfromtxt 1 1 raw = .ok ([first], rest') := by
      rw [genfromtxt, hD]
      simp [hcr]
    rw [hD] at h
    simp only [List.headD_cons] at h
    rw [glowparse, hg1]
    simp [h]

/-- C3 witness. -/
theorem c3_header_assert_witness :
    (headerFields [[], [1, 2, 3]]).length ≠ 10 ∧
      glowparse [[], [1, 2, 3]] = .error "AssertionError: header.size == 10" :=
  ⟨by decide, c3_header_assert [[], [1, 2, 3]] (by decide)⟩

/-! ### Claim C4 -/

/-- C4: for every input text whose first data block, as read, has a number of
data columns (excluding the altitude column 0) different from 13, `glowparse`
raises, whatever the row count. -/
theorem c4_block1_columns (raw : Raw) (dat : List Line)
    (hfb : firstBlock raw = .ok dat) (hc : (dat.headD []).length - 1 ≠ 13) :
    failed (glowparse raw) = true := by
  by_contra hft
  obtain ⟨ds, hds⟩ : ∃ ds, glowparse raw = .ok ds := by
    cases hgp : glowparse raw with
    | error e => rw [hgp] at hft; exact (hft rfl).elim
    | ok ds => exact ⟨ds, rfl⟩
  obtain ⟨p1, p2, p3, hg1, hg2, hg3, hlen1, h14, hlen2, h16, hanc⟩ :=
    glowparse_ok_shape raw ds hds
  rw [firstBlock, hg1] at hfb
  obtain ⟨a1, b1⟩ := p1
  simp only at hfb hg2
  rw [hg2] at hfb
  obtain ⟨dat1, rest2⟩ := p2
  simp only [Except.ok.injEq] at hfb
  subst hfb
  simp only at h14
  rw [h14] at hc
  exact hc rfl

/-- C4 witness: a capture whose first block rows have 12 data columns. -/
theorem c4_block1_columns_witness :
    firstBlock ([[0], List.replicate 10 1, [0]] ++
        (List.replicate 102 (List.replicate 13 2) : List Line)) =
      .ok (List.replicate 102 (List.replicate 13 2)) ∧
    failed (glowparse ([[0], List.replicate 10 1, [0]] ++
        (List.replicate 102 (List.replicate 13 2) : List Line))) = true := by
  constructor
  · decide
  · exact c4_block1_columns _ (List.replicate 102 (List.replicate 13 2))
      (by decide) (by decide)

/-! ### Claim C5 -/

/-- C5: for every input text in which the first altitude value of the second
data block, as read, differs from the first altitude value of the first
block, `glowparse` raises. -/
theorem c5_altitude_anchor (raw : Raw) (dat1 dat2 : List Line)
    (h1 : firstBlock raw = .ok dat1) (h2 : secondBlock raw = .ok dat2)
    (hne : (dat2.headD []).headD 0 ≠ (dat1.headD []).headD 0) :
    failed (glowparse raw) = true := by
  by_contra hft
  obtain ⟨ds, hds⟩ : ∃ ds, glowparse raw = .ok ds := by
    cases hgp : glowparse raw with
    | error e => rw [hgp] at hft; exact (hft rfl).elim
    | ok ds => exact ⟨ds, rfl⟩
  obtain ⟨p1, p2, p3, hg1, hg2, hg3, hlen1, h14, hlen2, h16, hanc⟩ :=
    glowparse_ok_shape raw ds hds
  rw [firstBlock, hg1] at h1
  rw [secondBlock, hg1] at h2
  obtain ⟨a1, b1⟩ := p1
  simp only at h1 h2 hg2
  rw [hg2] at h1 h2
  obtain ⟨d1, r2⟩ := p2
  simp only [Except.ok.injEq] at h1
  subst h1
  simp only at h2 hg3 hanc
  rw [hg3] at h2
  obtain ⟨d2, r3⟩ := p3
  simp only [Except.ok.injEq] at h2
  subst h2
  simp only at hanc
  exact hne hanc

/-- C5 witness: second block starts at altitude 3, first block at 0. -/
theorem c5_altitude_anchor_witness :
    firstBlock ([[0], List.replicate 10 1, [0]] ++
        List.replicate 102 (List.replicate 14 0) ++ [[0]] ++
        List.replicate 102 ((3 : ℚ) :: List.replicate 15 0)) =
      .ok (List.replicate 102 (List.replicate 14 0)) ∧
    secondBlock ([[0], List.replicate 10 1, [0]] ++
        List.replicate 102 (List.replicate 14 0) ++ [[0]] ++
        List.replicate 102 ((3 : ℚ) :: List.replicate 15 0)) =
      .ok (List.replicate 102 ((3 : ℚ) :: List.replicate 15 0)) ∧
    failed (glowparse ([[0], List.replicate 10 1, [0]] ++
        List.replicate 102 (List.replicate 14 0) ++ [[0]] ++
        List.replicate 102 ((3 : ℚ) :: List.replicate 15 0))) = true := by
  refine ⟨by decide, by decide, ?_⟩
  exact c5_altitude_anchor _ (List.replicate 102 (List.replicate 14 0))
    (List.replicate 102 ((3 : ℚ) :: List.replicate 15 0))
    (by decide) (by decide) (by decide)

/-! ### Claims C7 and C10 -/

theorem pad3_length (n : ℕ) (h1 : 1 ≤ n) (h2 : n ≤ 366) : (pad3 n).length = 3 := by
  have p0 : (10 : ℕ) ^ 0 = 1 := by norm_num
  have p1 : (10 : ℕ) ^ 1 = 10 := by norm_num
  have p2 : (10 : ℕ) ^ 2 = 100 := by norm_num
  have p3 : (10 : ℕ) ^ 3 = 1000 := by norm_num
  unfold pad3
  by_cases ha : n < 10
  · rw [if_pos ha, String.length_append,
      repr_length_exact 0 n (by rw [p0]; omega) (by rw [p1]; omega)]
    decide
  · rw [if_neg ha]
    by_cases hb : n < 100
    · rw [if_pos hb, String.length_append,
        repr_length_exact 1 n (by rw [p1]; omega) (by rw [p2]; omega)]
      decide
    · rw [if_neg hb]
      exact repr_length_exact 2 n (by rw [p2]; omega) (by rw [p3]; omega)

/-- C7: for every valid timestamp with a four-digit year, `glowdate` returns
the year's four decimal digits followed by the three-digit zero-padded day of
year, and the decimal rendering of the seconds since local midnight; at
midnight of day 1 the fields are "<year>001" and "0", and at 23:59:59 the
seconds field is "86399". -/
theorem c7_glowdate_format (t : Timestamp) (hv : t.Valid) (hy : 1000 ≤ t.year) :
    (glowdate t).1 = Nat.repr t.year ++ pad3 t.doy ∧
    (Nat.repr t.year).length = 4 ∧ (pad3 t.doy).length = 3 ∧
    (glowdate t).2 = Nat.repr (t.hour * 3600 + t.minute * 60 + t.second) ∧
    (t.doy = 1 → t.hour = 0 → t.minute = 0 → t.second = 0 →
      (glowdate t).1 = Nat.repr t.year ++ "001" ∧ (glowdate t).2 = "0") ∧
    (t.hour = 23 → t.minute = 59 → t.second = 59 → (glowdate t).2 = "86399") := by
  obtain ⟨hv1, hv2, hv3, hv4, hv5, hv6, hv7, hv8⟩ := hv
  have p3' : (10 : ℕ) ^ 3 = 1000 := by norm_num
  have p4 : (10 : ℕ) ^ 4 = 10000 := by norm_num
  refine ⟨rfl, ?_, pad3_length t.doy hv3 hv4, rfl, ?_, ?_⟩
  · exact repr_length_exact 3 t.year (by rw [p3']; omega) (by rw [p4]; omega)
  · intro hd hh hm hs
    constructor
    · show Nat.repr t.year ++ pad3 t.doy = _
      rw [hd, show pad3 (1 : ℕ) = "001" from by decide]
    · show Nat.repr (t.hour * 3600 + t.minute * 60 + t.second) = "0"
      rw [hh, hm, hs]
      decide
  · intro hh hm hs
    show Nat.repr (t.hour * 3600 + t.minute * 60 + t.second) = "86399"
    rw [hh, hm, hs]
    decide

/-- C7 witness. -/
theorem c7_glowdate_format_witness :
    Timestamp.Valid ⟨2015, 1, 0, 0, 0, 0⟩ ∧ 1000 ≤ (2015 : ℕ) ∧
    ((glowdate ⟨2015, 1, 0, 0, 0, 0⟩).1 =
        Nat.repr (2015 : ℕ) ++ pad3 (1 : ℕ) ∧
      (Nat.repr (2015 : ℕ)).length = 4 ∧ (pad3 (1 : ℕ)).length = 3 ∧
      (glowdate ⟨2015, 1, 0, 0, 0, 0⟩).2 =
        Nat.repr ((0 : ℕ) * 3600 + (0 : ℕ) * 60 + (0 : ℕ)) ∧
      ((1 : ℕ) = 1 → (0 : ℕ) = 0 → (0 : ℕ) = 0 → (0 : ℕ) = 0 →
        (glowdate ⟨2015, 1, 0, 0, 0, 0⟩).1 = Nat.repr (2015 : ℕ) ++ "001" ∧
        (glowdate ⟨2015, 1, 0, 0, 0, 0⟩).2 = "0") ∧
      ((0 : ℕ) = 23 → (0 : ℕ) = 59 → (0 : ℕ) = 59 →
        (glowdate ⟨2015, 1, 0, 0, 0, 0⟩).2 = "86399")) :=
  ⟨by decide, by decide, c7_glowdate_format ⟨2015, 1, 0, 0, 0, 0⟩ (by decide) (by decide)⟩

/-- C10: the seconds field of `glowdate` never reads the microsecond field
(any sub-second value yields the same output), and its integer value is at
most 86399 for every valid timestamp. -/
theorem c10_utsec_bounds (t : Timestamp) (hv : t.Valid) :
    (∀ us : ℕ, glowdate ⟨t.year, t.doy, t.hour, t.minute, t.second, us⟩ = glowdate t) ∧
    ∃ n : ℕ, n ≤ 86399 ∧ (glowdate t).2 = Nat.repr n := by
  obtain ⟨hv1, hv2, hv3, hv4, hv5, hv6, hv7, hv8⟩ := hv
  refine ⟨fun us => rfl, ⟨t.hour * 3600 + t.minute * 60 + t.second, ?_, rfl⟩⟩
  omega

/-- C10 witness. -/
theorem c10_utsec_bounds_witness :
    Timestamp.Valid ⟨2015, 300, 23, 59, 59, 123456⟩ ∧
    ((∀ us : ℕ, glowdate ⟨2015, 300, 23, 59, 59, us⟩ =
        glowdate ⟨2015, 300, 23, 59, 59, 123456⟩) ∧
      ∃ n : ℕ, n ≤ 86399 ∧ (glowdate ⟨2015, 300, 23, 59, 59, 123456⟩).2 = Nat.repr n) :=
  ⟨by decide, c10_utsec_bounds ⟨2015, 300, 23, 59, 59, 123456⟩ (by decide)⟩

/-! ### Claim C8 -/

/-- C8: the line `maxwellian` writes to the executable's stdin splits on
spaces into exactly 10 fields, in the fixed order: date, seconds since
midnight, latitude, longitude, 81-day-average F10.7, same-day F10.7,
previous-day F10.7, Ap, energy flux, characteristic energy (provided the
eight numeric renderings contain no space, as `str` of a float never does). -/
theorem c8_stdin_fields (t : Timestamp)
    (glat glon f107a f107 f107p ap q echar : String)
    (h3 : (' ' : Char) ∉ glat.data) (h4 : (' ' : Char) ∉ glon.data)
    (h5 : (' ' : Char) ∉ f107a.data) (h6 : (' ' : Char) ∉ f107.data)
    (h7 : (' ' : Char) ∉ f107p.data) (h8 : (' ' : Char) ∉ ap.data)
    (h9 : (' ' : Char) ∉ q.data) (h10 : (' ' : Char) ∉ echar.data) :
    splitFields (maxwellianStdin t glat glon f107a f107 f107p ap q echar).data =
      (maxwellianFields t glat glon f107a f107 f107p ap q echar).map String.data ∧
    (maxwellianFields t glat glon f107a f107 f107p ap q echar).length = 10 := by
  have h1 : (' ' : Char) ∉ ((glowdate t).1).data := by
    show (' ' : Char) ∉ (Nat.repr t.year ++ pad3 t.doy).data
    rw [String.data_append]
    simp only [List.mem_append, not_or]
    exact ⟨space_notin_repr t.year, space_notin_pad3 t.doy⟩
  have h2 : (' ' : Char) ∉ ((glowdate t).2).data :=
    space_notin_repr (t.hour * 3600 + t.minute * 60 + t.second)
  constructor
  · rw [maxwellianStdin]
    simp only [String.data_append, List.append_assoc]
    simp only [List.singleton_append]
    rw [splitFields_sep _ _ h1, splitFields_sep _ _ h2, splitFields_sep _ _ h3,
      splitFields_sep _ _ h4, splitFields_sep _ _ h5, splitFields_sep _ _ h6,
      splitFields_sep _ _ h7, splitFields_sep _ _ h8, splitFields_sep _ _ h9,
      splitFields_nosep _ h10]
    rfl
  · rfl

/-- C8 witness. -/
theorem c8_stdin_fields_witness :
    ((' ' : Char) ∉ ("65.0" : String).data ∧ (' ' : Char) ∉ ("-148.0" : String).data ∧
      (' ' : Char) ∉ ("120.1" : String).data ∧ (' ' : Char) ∉ ("115.0" : String).data ∧
      (' ' : Char) ∉ ("113.0" : String).data ∧ (' ' : Char) ∉ ("7.0" : String).data ∧
      (' ' : Char) ∉ ("1.0" : String).data ∧ (' ' : Char) ∉ ("0.5" : String).data) ∧
    (splitFields (maxwellianStdin ⟨2015, 300, 12, 0, 0, 0⟩ "65.0" "-148.0" "120.1"
          "115.0" "113.0" "7.0" "1.0" "0.5").data =
        (maxwellianFields ⟨2015, 300, 12, 0, 0, 0⟩ "65.0" "-148.0" "120.1"
          "115.0" "113.0" "7.0" "1.0" "0.5").map String.data ∧
      (maxwellianFields ⟨2015, 300, 12, 0, 0, 0⟩ "65.0" "-148.0" "120.1"
        "115.0" "113.0" "7.0" "1.0" "0.5").length = 10) :=
  ⟨⟨by decide, by decide, by decide, by decide, by decide, by decide, by decide,
    by decide⟩,
   c8_stdin_fields ⟨2015, 300, 12, 0, 0, 0⟩ "65.0" "-148.0" "120.1" "115.0"
     "113.0" "7.0" "1.0" "0.5" (by decide) (by decide) (by decide) (by decide)
     (by decide) (by decide) (by decide) (by decide)⟩

/-! ### Claim C1 -/

set_option maxRecDepth 100000 in
/-- C1 counterexample: a capture laid out exactly as the claim states its
well-formed input (header-echo line, 10-field header row, then directly the
102-row 14-column block and the 102-row 16-column block with matching first
altitude) is rejected: the parser skips one line before each block read, so
it consumes the first data row as a label line and then meets 16-field rows
while reading a 14-column table. -/
theorem c1_claim_layout_fails :
    c1Header.length = 10 ∧ c1Block1.length = 102 ∧
    (∀ r ∈ c1Block1, r.length = 14) ∧ c1Block2.length = 102 ∧
    (∀ r ∈ c1Block2, r.length = 16) ∧
    (c1Block2.headD []).headD 0 = (c1Block1.headD []).headD 0 ∧
    glowparse c1ClaimInput =
      .error "ValueError: genfromtxt inconsistent column counts" := by
  refine ⟨by decide, by decide, by decide, by decide, by decide, by decide, ?_⟩
  decide

/-- C1 (amended): for every capture whose well-formed layout includes one
skipped label line before each data block — header-echo line, 10-field
header row, a label line, 102 rows of 14 fields, a label line, 102 rows of
16 fields with matching first altitude — `glowparse` succeeds with an
altitude coordinate of length 102, exactly 13 named 1-D data variables, and
one 2-D array of 102 rows of width 15 over the 15 fixed wavelength labels. -/
theorem c1_wellformed_parse (e h l1 l2 : Line) (b1 b2 : List Line)
    (h10 : h.length = 10) (hb1len : b1.length = 102)
    (hb1 : ∀ r ∈ b1, r.length = 14) (hb2len : b2.length = 102)
    (hb2 : ∀ r ∈ b2, r.length = 16)
    (hanchor : (b2.headD []).headD 0 = (b1.headD []).headD 0) :
    ∃ ds : Dataset, glowparse (e :: h :: l1 :: (b1 ++ l2 :: b2)) = .ok ds ∧
      ds.alt_km.length = 102 ∧ ds.data_vars.length = 13 ∧
      ds.ver.length = 102 ∧ (∀ r ∈ ds.ver, r.length = 15) ∧
      ds.wavelength = wavelen := by
  refine ⟨_, glowparse_wellformed e h l1 l2 b1 b2 h10 hb1len hb1 hb2len hb2
    hanchor, ?_, ?_, ?_, ?_, rfl⟩
  · simpa using hb1len
  · simp [glow_var, colsT]
  · simpa using hb2len
  · intro r hr
    obtain ⟨s, hs, hts⟩ := List.mem_map.mp hr
    have hs16 : s.length = 16 := hb2 s hs
    rw [← hts]
    cases s with
    | nil => simp at hs16
    | cons a st =>
      simp only [List.length_cons] at hs16
      simp only [List.tail_cons]
      omega

set_option maxRecDepth 100000 in
/-- C1 witness. -/
theorem c1_wellformed_parse_witness :
    (c1Header.length = 10 ∧ c1Block1.length = 102 ∧
      (∀ r ∈ c1Block1, r.length = 14) ∧ c1Block2.length = 102 ∧
      (∀ r ∈ c1Block2, r.length = 16) ∧
      (c1Block2.headD []).headD 0 = (c1Block1.headD []).headD 0) ∧
    (∃ ds : Dataset,
      glowparse (c1Echo :: c1Header :: ([7] : Line) ::
          (c1Block1 ++ (([8] : Line) :: c1Block2))) = .ok ds ∧
      ds.alt_km.length = 102 ∧ ds.data_vars.length = 13 ∧
      ds.ver.length = 102 ∧ (∀ r ∈ ds.ver, r.length = 15) ∧
      ds.wavelength = wavelen) :=
  ⟨⟨by decide, by decide, by decide, by decide, by decide, by decide⟩,
   c1_wellformed_parse c1Echo c1Header [7] [8] c1Block1 c1Block2 (by decide)
     (by decide) (by decide) (by decide) (by decide) (by decide)⟩

/-! ### Claim C2 -/

set_option maxRecDepth 100000 in
/-- C2 counterexample: the synthetic capture laid out exactly as the claim
states it (1 header-echo line, 1 ten-field header line, 102 rows of 14
columns, 102 rows of 16 columns, matching first altitude) is rejected
instead of parsed. -/
theorem c2_claim_layout_fails :
    glowparse c2ClaimInput =
      .error "ValueError: genfromtxt inconsistent column counts" := by
  decide

set_option maxRecDepth 100000 in
/-- C2 (amended): on the synthetic capture with one skipped label line
before each data block, `glowparse` succeeds, the first named quantity is
"Tn", and its value at the first altitude index is the literal value at
row 0, column 1 of the first data block (the value 7). -/
theorem c2_synthetic_parse :
    ∃ ds : Dataset, glowparse c2Input = .ok ds ∧
      (ds.data_vars.headD ("", [])).1 = "Tn" ∧
      (ds.data_vars.headD ("", [])).2.headD 0 = (c2Block1.headD []).getD 1 0 ∧
      (c2Block1.headD []).getD 1 0 = 7 := by
  refine ⟨_, glowparse_wellformed c1Echo c1Header [9] [8] c2Block1 c2Block2
    (by decide) (by decide) (by decide) (by decide) (by decide) (by decide),
    ?_, ?_, by decide⟩
  · decide
  · decide

/-! ### Claim C9 -/

/-- C9: the returned dataset never reads the altitude column of the second
block beyond its first row: two well-formed captures that differ only in the
altitude-column values of the second block at rows 1..101 (same first
altitude, same non-altitude content) parse to equal datasets. -/
theorem c9_block2_altitudes_ignored (e h l1 l2 : Line) (b1 b2 b2' : List Line)
    (h10 : h.length = 10) (hb1len : b1.length = 102)
    (hb1 : ∀ r ∈ b1, r.length = 14) (hb2len : b2.length = 102)
    (hb2 : ∀ r ∈ b2, r.length = 16)
    (hanchor : (b2.headD []).headD 0 = (b1.headD []).headD 0)
    (htails : b2'.map List.tail = b2.map List.tail)
    (hne : ∀ r ∈ b2', r ≠ ([] : Line))
    (hhead : (b2'.headD []).headD 0 = (b2.headD []).headD 0) :
    glowparse (e :: h :: l1 :: (b1 ++ l2 :: b2')) =
      glowparse (e :: h :: l1 :: (b1 ++ l2 :: b2)) := by
  have hlen' : b2'.length = 102 := by
    have hx := congrArg List.length htails
    simpa [hb2len] using hx
  have hb2' : ∀ r ∈ b2', r.length = 16 := by
    intro r hr
    have hmem : r.tail ∈ b2'.map List.tail := List.mem_map_of_mem _ hr
    rw [htails] at hmem
    obtain ⟨t, ht, htt⟩ := List.mem_map.mp hmem
    have ht16 : t.length = 16 := hb2 t ht
    have hrne : r ≠ [] := hne r hr
    have hlr : r.length = r.tail.length + 1 := by
      cases r with
      | nil => exact absurd rfl hrne
      | cons a rt => simp
    have hlt : t.tail.length = 15 := by
      cases t with
      | nil => simp at ht16
      | cons a tt =>
        simp only [List.length_cons] at ht16
        simp only [List.tail_cons]
        omega
    rw [hlr, ← htt, hlt]
  rw [glowparse_wellformed e h l1 l2 b1 b2' h10 hb1len hb1 hlen' hb2'
      (hhead.trans hanchor),
    glowparse_wellformed e h l1 l2 b1 b2 h10 hb1len hb1 hb2len hb2 hanchor]
  rw [htails]

set_option maxRecDepth 100000 in
/-- C9 witness: the two captures share everything except the second-block
altitudes after row 0 (100 versus 999), and parse to the same dataset. -/
theorem c9_block2_altitudes_ignored_witness :
    (c9Block2Alt.map List.tail = c9Block2.map List.tail ∧
      (∀ r ∈ c9Block2Alt, r ≠ ([] : Line)) ∧
      (c9Block2Alt.headD []).headD 0 = (c9Block2.headD []).headD 0) ∧
    glowparse (c1Echo :: c1Header :: ([7] : Line) ::
        (c1Block1 ++ (([8] : Line) :: c9Block2Alt))) =
      glowparse (c1Echo :: c1Header :: ([7] : Line) ::
        (c1Block1 ++ (([8] : Line) :: c9Block2))) :=
  ⟨⟨by decide, by decide, by decide⟩,
   c9_block2_altitudes_ignored c1Echo c1Header [7] [8] c1Block1 c9Block2
     c9Block2Alt (by decide) (by decide) (by decide) (by decide) (by decide)
     (by decide) (by decide) (by decide) (by decide)⟩

/-! ### Claim C6 -/

/-- C6: a capture whose layout is otherwise well formed (10-field header,
14-field rows in block 1, 16-field rows in block 2, a label line that is not
a 14-field row between the blocks) but in which either block has fewer than
102 rows is always rejected: no dataset is ever built from the rows that
were present. -/
theorem c6_row_count (e h l1 l2 : Line) (b1 b2 : List Line)
    (h10 : h.length = 10)
    (hb1 : ∀ r ∈ b1, r.length = 14) (hb2 : ∀ r ∈ b2, r.length = 16)
    (hl2 : l2.length ≠ 14)
    (hb1le : b1.length ≤ 102) (hb2le : b2.length ≤ 102)
    (hshort : b1.length < 102 ∨ b2.length < 102) :
    failed (glowparse (e :: h :: l1 :: (b1 ++ l2 :: b2))) = true := by
  by_contra hft
  obtain ⟨ds, hds⟩ : ∃ ds, glowparse (e :: h :: l1 :: (b1 ++ l2 :: b2)) = .ok ds := by
    cases hgp : glowparse (e :: h :: l1 :: (b1 ++ l2 :: b2)) with
    | error msg => rw [hgp] at hft; exact (hft rfl).elim
    | ok ds => exact ⟨ds, rfl⟩
  obtain ⟨p1, p2, p3, hg1, hg2, hg3, hlen1, h14, hlen2, h16, hanc⟩ :=
    glowparse_ok_shape _ ds hds
  have hg1' : genfromtxt 1 1 (e :: h :: l1 :: (b1 ++ l2 :: b2)) =
      .ok ([h], l1 :: (b1 ++ l2 :: b2)) := by
    have hx := genfromtxt_exact 1 le_rfl e [h] (l1 :: (b1 ++ l2 :: b2)) 10
      (by omega) (by simp) (by simpa using h10)
    simpa using hx
  have hp1 : p1 = ([h], l1 :: (b1 ++ l2 :: b2)) := Except.ok.inj (hg1.symm.trans hg1')
  rw [hp1] at hg2
  simp only at hg2
  by_cases hcase : b1.length < 102
  · have hne2 : p2.1 ≠ [] := by
      intro hx
      rw [hx] at hlen1
      simp [Nalt] at hlen1
    have hcnt := genfromtxt_count 1 Nalt (l1 :: (b1 ++ l2 :: b2)) p2.1 p2.2 hg2 hne2
    rw [h14] at hcnt
    have hdrop : (l1 :: (b1 ++ l2 :: b2)).drop 1 = b1 ++ l2 :: b2 := rfl
    rw [hdrop, List.countP_append, List.countP_cons] at hcnt
    have hcb1 : b1.countP (fun l => l.length == 14) ≤ b1.length :=
      List.countP_le_length _
    have hcb2 : b2.countP (fun l => l.length == 14) = 0 := by
      rw [List.countP_eq_zero]
      intro a ha
      simp [hb2 a ha]
    rw [hlen1, hcb2] at hcnt
    simp [Nalt, hl2] at hcnt
    omega
  · have hb1eq : b1.length = 102 := by omega
    have hb2lt : b2.length < 102 := by
      rcases hshort with hx | hx
      · omega
      · exact hx
    have hg2' : genfromtxt 1 Nalt (l1 :: (b1 ++ l2 :: b2)) = .ok (b1, l2 :: b2) :=
      genfromtxt_exact Nalt (by simp [Nalt]) l1 b1 (l2 :: b2) 14 (by omega)
        (by simpa [Nalt] using hb1eq) hb1
    have hp2 : p2 = (b1, l2 :: b2) := Except.ok.inj (hg2.symm.trans hg2')
    rw [hp2] at hg3
    simp only at hg3
    have hne3 : p3.1 ≠ [] := by
      intro hx
      rw [hx] at hlen2
      simp [Nalt] at hlen2
    have hcnt := genfromtxt_count 1 Nalt (l2 :: b2) p3.1 p3.2 hg3 hne3
    rw [h16] at hcnt
    have hdrop : (l2 :: b2).drop 1 = b2 := rfl
    rw [hdrop] at hcnt
    have hcb2 : b2.countP (fun l => l.length == 16) ≤ b2.length :=
      List.countP_le_length _
    rw [hlen2] at hcnt
    simp [Nalt] at hcnt
    omega

set_option maxRecDepth 100000 in
/-- C6 witness: a capture whose first block has only 50 rows is rejected. -/
theorem c6_row_count_witness :
    (c1Header.length = 10 ∧
      (∀ r ∈ List.replicate 50 ((100 : ℚ) :: List.replicate 13 1), r.length = 14) ∧
      (∀ r ∈ c1Block2, r.length = 16) ∧ (([8] : Line)).length ≠ 14 ∧
      (List.replicate 50 ((100 : ℚ) :: List.replicate 13 1) : List Line).length ≤ 102 ∧
      c1Block2.length ≤ 102 ∧
      ((List.replicate 50 ((100 : ℚ) :: List.replicate 13 1) : List Line).length < 102 ∨
        c1Block2.length < 102)) ∧
    failed (glowparse (c1Echo :: c1Header :: ([7] : Line) ::
        (List.replicate 50 ((100 : ℚ) :: List.replicate 13 1) ++
          (([8] : Line) :: c1Block2)))) = true :=
  ⟨⟨by decide, by decide, by decide, by decide, by decide, by decide, by decide⟩,
   c6_row_count c1Echo c1Header [7] [8]
     (List.replicate 50 ((100 : ℚ) :: List.replicate 13 1)) c1Block2 (by decide)
     (by decide) (by decide) (by decide) (by decide) (by decide) (by decide)⟩

end Glow
